import Mathlib

/-!
Shallow embedding of the Schwab-Trading repository
(src/schwab_trader.py, src/schwab_trader_level2.py).

Prices are modelled as rationals; the Python builtin round to d decimal
places is modelled as rounding x * 10^d to the nearest integer (Mathlib
round) divided by 10^d.  Python dicts are modelled as association lists
where insertion keeps first-occurrence order and a later duplicate key
overwrites the stored value, and dict.get(k, default) is a lookup with a
default.
-/

namespace SchwabTrading

/-- Alternation state of the strategy.  Embeds class OrderState of
schwab_trader.py lines 17-20 and schwab_trader_level2.py lines 18-21.
The specification calls AT_BOOK AT_TOUCH and OFFSET_TICK OFF_TOUCH. -/
inductive OrderState where
  | AT_BOOK
  | OFFSET_TICK
deriving DecidableEq, Repr

/-- Order side, the side argument threaded through the traders. -/
inductive Side where
  | BUY
  | SELL
deriving DecidableEq, Repr

/-- Python round(x, d) modelled on rationals: nearest multiple of 10^(-d). -/
def roundTo (d : ℕ) (x : ℚ) : ℚ := (round (x * 10 ^ d) : ℚ) / 10 ^ d

/-- Embeds SchwabTrader._calculate_tick_size (schwab_trader.py lines
124-137) and SchwabTraderLevel2._calculate_tick_size
(schwab_trader_level2.py lines 318-323). -/
def calculate_tick_size (price : ℚ) : ℚ :=
  if price ≥ 1 then 1 / 100 else 1 / 10000

/-- Book snapshot dict built by get_order_book in both engines:
keys bid, ask, bid_size, ask_size, tick_size.  The Level-2 engine also
stores a source string used only in log lines; it is carried separately
where needed. -/
structure Book where
  bid : ℚ
  ask : ℚ
  bid_size : ℚ
  ask_size : ℚ
  tick_size : ℚ
deriving DecidableEq, Repr

/-- Embeds the pricing core of SchwabTrader.calculate_next_price
(schwab_trader.py lines 248-269) and of
SchwabTraderLevel2.calculate_next_price (schwab_trader_level2.py lines
380-398), the part after the book snapshot has been obtained: the two
bodies are textually identical (the Level-2 version additionally returns
the snapshot source string, used only for logging). -/
def calculate_next_price (side : Side) (state : OrderState) (book : Book) :
    ℚ × OrderState :=
  let tick_size := book.tick_size
  let pr : ℚ × OrderState :=
    match side, state with
    | Side.BUY, OrderState.AT_BOOK => (book.bid, OrderState.OFFSET_TICK)
    | Side.BUY, OrderState.OFFSET_TICK => (book.bid - tick_size, OrderState.AT_BOOK)
    | Side.SELL, OrderState.AT_BOOK => (book.ask, OrderState.OFFSET_TICK)
    | Side.SELL, OrderState.OFFSET_TICK => (book.ask + tick_size, OrderState.AT_BOOK)
  (roundTo 4 pr.1, pr.2)

/-- Embeds the book-fetch wrapper of calculate_next_price in both
engines: on a missing snapshot the call returns (None, state) and is
counted as unsuccessful; on a snapshot it returns the rounded price and
the next state. -/
def calculate_next_price_opt (side : Side) (state : OrderState)
    (book? : Option Book) : Option ℚ × OrderState :=
  match book? with
  | none => (none, state)
  | some book =>
    let r := calculate_next_price side state book
    (some r.1, r.2)

/-- The state the order management loop starts from:
self.current_state = OrderState.OFFSET_TICK, schwab_trader.py line 279
and schwab_trader_level2.py line 403. -/
def order_management_loop_initial_state : OrderState := OrderState.OFFSET_TICK

/-- The sequence of alternation states held by the execution loop when
every pricing call succeeds: the loop starts at OFFSET_TICK
(schwab_trader.py line 279, schwab_trader_level2.py line 403) and after
each successful call assigns self.current_state = next_state
(schwab_trader.py lines 301/356, schwab_trader_level2.py lines 435/489).
The book snapshot seen by call n is arbitrary, hence a parameter. -/
def state_sequence (side : Side) (books : ℕ → Book) : ℕ → OrderState
  | 0 => order_management_loop_initial_state
  | n + 1 => (calculate_next_price side (state_sequence side books n) (books n)).2

/-- Python str.upper modelled character by character (the Lean builtin
String.toUpper is equivalent on ASCII symbols but does not reduce in the
kernel, so the character-level map is used). -/
def pyUpper (s : String) : String := ⟨s.data.map Char.toUpper⟩

/-- A Level-1 quote dict: association list from field name to numeric
value; absence of a key models absence of the field in the JSON. -/
abbrev Quote := List (String × ℚ)

/-- quote.get(field, 0) on the Quote dict model: the value stored under
the field, 0 when the field is absent (dict keys are unique, so first
match is the match). -/
def quoteGet (q : Quote) (field : String) : ℚ :=
  match q with
  | [] => 0
  | e :: rest => if e.1 = field then e.2 else quoteGet rest field

/-- Embeds SchwabTrader.get_order_book (schwab_trader.py lines 101-122)
given the result of get_quote (None on non-200 responses).  The Python
truthiness test if quote: rejects both None and the empty dict.  The
identical Level-1 fallback branch of SchwabTraderLevel2.get_order_book
(schwab_trader_level2.py lines 305-316) builds the same snapshot. -/
def get_order_book (quote? : Option Quote) : Option Book :=
  match quote? with
  | none => none
  | some quote =>
    if quote.isEmpty then none
    else some
      { bid := quoteGet quote "bidPrice"
        ask := quoteGet quote "askPrice"
        bid_size := quoteGet quote "bidSize"
        ask_size := quoteGet quote "askSize"
        tick_size := calculate_tick_size (quoteGet quote "bidPrice") }

/-- The two sides of one symbol entry in Level2BookHandler.books, each a
dict price to size (schwab_trader_level2.py line 28). -/
structure SideBooks where
  bids : List (ℚ × ℕ)
  asks : List (ℚ × ℕ)
deriving DecidableEq, Repr

/-- The default entry of the defaultdict self.books (line 28). -/
def emptySides : SideBooks := ⟨[], []⟩

/-- The whole Level2BookHandler.books store: None for a symbol that has
never been written (defaultdict entries are only materialised on
subscript access, which in _process_book_data happens exactly when a
side is assigned). -/
abbrev Books := String → Option SideBooks

/-- d.get(k, 0) on a price-to-size dict. -/
def sizeAt (d : List (ℚ × ℕ)) (k : ℚ) : ℕ :=
  match d with
  | [] => 0
  | e :: rest => if e.1 = k then e.2 else sizeAt rest k

/-- Best bid/ask answer of Level2BookHandler.get_top_of_book
(schwab_trader_level2.py lines 92-97). -/
structure TopOfBook where
  bid : ℚ
  ask : ℚ
  bid_size : ℕ
  ask_size : ℕ
deriving DecidableEq, Repr

/-- Embeds Level2BookHandler.get_top_of_book (schwab_trader_level2.py
lines 71-97): None when the symbol has no entry or either side is empty;
otherwise the maximum bid key and minimum ask key with their sizes.
The Python expressions max(keys) if nonempty else 0 are modelled with
List.maximum / List.minimum and a default of 0. -/
def get_top_of_book (books : Books) (symbol : String) : Option TopOfBook :=
  let symbol := pyUpper symbol
  match books symbol with
  | none => none
  | some book =>
    if book.bids.isEmpty || book.asks.isEmpty then none
    else
      let best_bid_price : ℚ := ((book.bids.map Prod.fst).maximum).unbot' 0
      let best_bid_size := sizeAt book.bids best_bid_price
      let best_ask_price : ℚ := ((book.asks.map Prod.fst).minimum).untop' 0
      let best_ask_size := sizeAt book.asks best_ask_price
      some
        { bid := best_bid_price
          ask := best_ask_price
          bid_size := best_bid_size
          ask_size := best_ask_size }

/-- One raw level record inside BOOK_BID / BOOK_ASK of a streaming book
update: BID_PRICE/ASK_PRICE and TOTAL_VOLUME may each be absent. -/
structure RawLevel where
  price? : Option ℚ
  volume? : Option ℕ
deriving DecidableEq, Repr

/-- Python dict insertion on an association list: a later duplicate key
overwrites the stored value in place, a new key is appended. -/
def dictInsert (d : List (ℚ × ℕ)) (k : ℚ) (v : ℕ) : List (ℚ × ℕ) :=
  if d.any (fun e => decide (e.1 = k)) then
    d.map (fun e => if e.1 = k then (k, v) else e)
  else d ++ [(k, v)]

/-- Embeds the dict comprehension of _process_book_data
(schwab_trader_level2.py lines 54-57 and 62-65): keep only records that
carry a price, default the volume to 0, build a dict. -/
def parseLevels (ls : List RawLevel) : List (ℚ × ℕ) :=
  (ls.filterMap (fun r => r.price?.map (fun p => (p, r.volume?.getD 0)))).foldl
    (fun d e => dictInsert d e.1 e.2) []

/-- One item of the content list of a streaming book update event:
key is the symbol, BOOK_BID and BOOK_ASK are each optional. -/
structure BookItem where
  key : String
  bookBid? : Option (List RawLevel)
  bookAsk? : Option (List RawLevel)
deriving DecidableEq, Repr

/-- Store update self.books[symbol] with bids replaced (the defaultdict
materialises the entry with empty sides on first access). -/
def setBids (books : Books) (symbol : String) (bids : List (ℚ × ℕ)) : Books :=
  fun s =>
    if s = symbol then some { (books symbol).getD emptySides with bids := bids }
    else books s

/-- Store update self.books[symbol] with asks replaced. -/
def setAsks (books : Books) (symbol : String) (asks : List (ℚ × ℕ)) : Books :=
  fun s =>
    if s = symbol then some { (books symbol).getD emptySides with asks := asks }
    else books s

/-- Embeds the per-item body of Level2BookHandler._process_book_data
(schwab_trader_level2.py lines 47-67): uppercase the key, skip an empty
symbol, then, for each side present in the item, assign the parsed dict
to that side of the symbol entry (a whole-side assignment). -/
def process_item (books : Books) (item : BookItem) : Books :=
  let symbol := pyUpper item.key
  if symbol = "" then books
  else
    let books1 :=
      match item.bookBid? with
      | some bids => setBids books symbol (parseLevels bids)
      | none => books
    match item.bookAsk? with
    | some asks => setAsks books1 symbol (parseLevels asks)
    | none => books1

/-- Embeds Level2BookHandler._process_book_data over the whole content
list of one event (schwab_trader_level2.py lines 43-67). -/
def process_book_data (books : Books) (content : List BookItem) : Books :=
  content.foldl process_item books

/-- The limit price written into the order spec by
SchwabTrader.place_order: order_spec price = round(price, 2)
(schwab_trader.py lines 170-171, LIMIT branch). -/
def place_order_limit_price (price : ℚ) : ℚ := roundTo 2 price

/-- The limit price written into the order spec by
SchwabTraderLevel2.place_order: order_spec price = round(price, 4)
(schwab_trader_level2.py lines 344-345, LIMIT branch). -/
def place_order_limit_price_level2 (price : ℚ) : ℚ := roundTo 4 price

/-- Fill-progress fields of the trader (quantity, filled_quantity,
remaining_quantity), schwab_trader.py lines 53-55. -/
structure FillState where
  quantity : ℤ
  filled_quantity : ℤ
  remaining_quantity : ℤ
deriving DecidableEq, Repr

/-- Embeds SchwabTrader.start_order fill initialisation
(schwab_trader.py lines 380-384): filled 0, remaining = quantity. -/
def start_order (quantity : ℤ) : FillState :=
  { quantity := quantity, filled_quantity := 0, remaining_quantity := quantity }

/-- Embeds the fill-update step of the order management loop
(schwab_trader.py lines 317-323): when the venue reports a larger filled
quantity, adopt it and recompute remaining = quantity - filled. -/
def apply_fill_report (s : FillState) (filled_qty : ℤ) : FillState :=
  if s.filled_quantity < filled_qty then
    { s with
      filled_quantity := filled_qty
      remaining_quantity := s.quantity - filled_qty }
  else s

/-- The fill state after starting an order of the given quantity and
observing a sequence of venue-reported filled quantities, one per status
poll of the order management loop. -/
def run_fills (quantity : ℤ) (reports : List ℤ) : FillState :=
  reports.foldl apply_fill_report (start_order quantity)

/-- Gateway calls issued by one iteration of the order management loop,
in issue order. -/
inductive GatewayAction where
  | getStatus (orderId : String)
  | cancel (orderId : String)
  | place (quantity : ℤ) (price : ℚ)
deriving DecidableEq, Repr

/-- Result of a successful get_order_status poll: the status string and
the venue-reported filled quantity (schwab_trader_level2.py lines
449-450). -/
structure StatusReport where
  status : String
  filledQuantity : ℤ
deriving DecidableEq, Repr

/-- Loop-visible mutable state of SchwabTraderLevel2 during the order
management loop: fill counters, current order id, alternation state. -/
structure LoopState where
  quantity : ℤ
  filled_quantity : ℤ
  remaining_quantity : ℤ
  current_order_id : String
  current_state : OrderState
deriving DecidableEq, Repr

/-- Embeds the fill-update step of
SchwabTraderLevel2.order_management_loop (schwab_trader_level2.py lines
446-456): a failed poll (None) changes nothing; a report with a larger
filled quantity is adopted and remaining recomputed. -/
def fill_update (st : LoopState) (report? : Option StatusReport) : LoopState :=
  match report? with
  | none => st
  | some r =>
    if st.filled_quantity < r.filledQuantity then
      { st with
        filled_quantity := r.filledQuantity
        remaining_quantity := st.quantity - r.filledQuantity }
    else st

/-- Embeds one active iteration of
SchwabTraderLevel2.order_management_loop (schwab_trader_level2.py lines
440-494), entered with is_running, not is_paused and
remaining_quantity > 0: poll status, adopt any fill, break when
remaining reaches 0 (the terminal-status branch only logs and breaks
when remaining is 0); otherwise compute the next price from the current
book snapshot - on missing market data sleep and retry with no order
action - and otherwise replace the order: replace_order (lines 361-365)
first cancels the current order id, then places a fresh order for the
remaining quantity at the new price; on a successful placement the new
id and the advanced alternation state are recorded.  Inputs beyond the
loop state: the poll result, the book snapshot and the order id the
venue returns for the placement (None on rejection).  The returned list
is the sequence of gateway calls the iteration issued. -/
def loop_cycle (side : Side) (st : LoopState) (report? : Option StatusReport)
    (book? : Option Book) (new_order_id? : Option String) :
    LoopState × List GatewayAction :=
  let polled := [GatewayAction.getStatus st.current_order_id]
  let st1 := fill_update st report?
  if st1.remaining_quantity = 0 then (st1, polled)
  else
    match calculate_next_price_opt side st1.current_state book? with
    | (none, _) => (st1, polled)
    | (some price, next_state) =>
      let acts := polled ++
        [GatewayAction.cancel st1.current_order_id,
         GatewayAction.place st1.remaining_quantity price]
      match new_order_id? with
      | some nid =>
        ({ st1 with current_order_id := nid, current_state := next_state }, acts)
      | none => (st1, acts)

/-- Embeds SchwabTraderLevel2.get_order_book (schwab_trader_level2.py
lines 282-316): when use_level2 holds and the handler has a top of book,
build the snapshot from it, with tick_size computed from its bid and the
source tag Level 2; otherwise fall back to the Level-1 quote path, whose
dict-building code is identical to SchwabTrader.get_order_book apart
from the source tag Level 1. -/
def get_order_book_level2 (use_level2 : Bool) (books : Books)
    (symbol : String) (quote? : Option Quote) : Option (Book × String) :=
  let top? := if use_level2 then get_top_of_book books symbol else none
  match top? with
  | some t =>
    some
      ({ bid := t.bid
         ask := t.ask
         bid_size := (t.bid_size : ℚ)
         ask_size := (t.ask_size : ℚ)
         tick_size := calculate_tick_size t.bid }, "Level 2")
  | none => (get_order_book quote?).map (fun b => (b, "Level 1"))

/-! ## Theorems -/

/-- Helper: the price component returned by the pricing core is always
an integer multiple of one ten-thousandth, at distance at most half of
one ten-thousandth from the unrounded price. -/
theorem roundTo_four_spec (x : ℚ) :
    ∃ n : ℤ, roundTo 4 x = (n : ℚ) / 10 ^ 4 ∧
      |roundTo 4 x - x| ≤ 1 / (2 * 10 ^ 4) := by
  refine ⟨round (x * 10 ^ 4), rfl, ?_⟩
  have h4 : (0 : ℚ) < 10 ^ 4 := by norm_num
  have habs := abs_sub_round (x * 10 ^ 4)
  have key : roundTo 4 x - x = -((x * 10 ^ 4 - round (x * 10 ^ 4)) / 10 ^ 4) := by
    unfold roundTo
    field_simp
    ring
  rw [key, abs_neg, abs_div, abs_of_pos h4, div_le_iff₀ h4]
  calc |x * 10 ^ 4 - round (x * 10 ^ 4)| ≤ 1 / 2 := habs
    _ = 1 / (2 * 10 ^ 4) * 10 ^ 4 := by norm_num

/-- C1: for every book snapshot with bid b, ask a and tick size t and
every alternation state, the pricing core returns, for BUY at touch, b
with next state off touch; for BUY off touch, b - t with next state at
touch; for SELL at touch, a with next state off touch; for SELL off
touch, a + t with next state at touch; every returned price is the
input quantity rounded to 4 decimal places (an integer multiple of
10^(-4), within half a tick of the unrounded value). -/
theorem calculate_next_price_cases (book : Book) :
    calculate_next_price Side.BUY OrderState.AT_BOOK book =
      (roundTo 4 book.bid, OrderState.OFFSET_TICK) ∧
    calculate_next_price Side.BUY OrderState.OFFSET_TICK book =
      (roundTo 4 (book.bid - book.tick_size), OrderState.AT_BOOK) ∧
    calculate_next_price Side.SELL OrderState.AT_BOOK book =
      (roundTo 4 book.ask, OrderState.OFFSET_TICK) ∧
    calculate_next_price Side.SELL OrderState.OFFSET_TICK book =
      (roundTo 4 (book.ask + book.tick_size), OrderState.AT_BOOK) ∧
    ∀ side state, ∃ n : ℤ,
      (calculate_next_price side state book).1 = (n : ℚ) / 10 ^ 4 := by
  refine ⟨rfl, rfl, rfl, rfl, ?_⟩
  intro side state
  cases side <;> cases state <;>
    exact ⟨_, rfl⟩

/-- Helper: each pricing call flips the alternation state. -/
theorem calculate_next_price_flips (side : Side) (state : OrderState)
    (book : Book) :
    (calculate_next_price side state book).2 =
      (match state with
       | OrderState.AT_BOOK => OrderState.OFFSET_TICK
       | OrderState.OFFSET_TICK => OrderState.AT_BOOK) := by
  cases side <;> cases state <;> rfl

/-- C2: the execution loop starts in the OFFSET_TICK (off-touch) state,
and feeding each successful pricing call the state returned by the
previous one yields the strict two-cycle OFF_TOUCH, AT_TOUCH,
OFF_TOUCH, ...: the state at step n is OFFSET_TICK exactly when n is
even, and every successful call returns the opposite of its input
state, whatever book snapshots the calls observe. -/
theorem state_sequence_two_cycle (side : Side) (books : ℕ → Book) :
    state_sequence side books 0 = OrderState.OFFSET_TICK ∧
    (∀ n, state_sequence side books n =
      if n % 2 = 0 then OrderState.OFFSET_TICK else OrderState.AT_BOOK) ∧
    ∀ state book, (calculate_next_price side state book).2 ≠ state := by
  refine ⟨rfl, ?_, ?_⟩
  · intro n
    induction n with
    | zero => rfl
    | succ m ih =>
      have hflip := calculate_next_price_flips side
        (state_sequence side books m) (books m)
      show (calculate_next_price side (state_sequence side books m)
        (books m)).2 = _
      rw [hflip, ih]
      rcases Nat.even_or_odd m with he | ho
      · have h2 : m % 2 = 0 := Nat.even_iff.mp he
        have h2' : (m + 1) % 2 = 1 := by omega
        simp [h2, h2']
      · have h2 : m % 2 = 1 := Nat.odd_iff.mp ho
        have h2' : (m + 1) % 2 = 0 := by omega
        simp [h2, h2']
  · intro state book
    rw [calculate_next_price_flips]
    cases state <;> simp

/-- Helper: rounding to d decimal places is idempotent. -/
theorem roundTo_idem (d : ℕ) (x : ℚ) : roundTo d (roundTo d x) = roundTo d x := by
  unfold roundTo
  have hne : ((10 : ℚ) ^ d) ≠ 0 := by positivity
  rw [div_mul_cancel₀ _ hne, round_intCast]

/-- C3 counterexample: at the computed strategy price 0.1234 (already a
4-decimal value), the quote-only engine writes round(0.1234, 2) = 0.12
into the order spec, not the price rounded to 4 decimal places. -/
theorem place_order_price_counterexample :
    place_order_limit_price (1234 / 10000) ≠ roundTo 4 (1234 / 10000) := by
  have h2 : place_order_limit_price (1234 / 10000) = 12 / 100 := by
    rw [place_order_limit_price, roundTo, round_eq]
    norm_num
  have h4 : roundTo 4 (1234 / 10000) = 1234 / 10000 := by
    rw [roundTo, round_eq]
    norm_num
  rw [h2, h4]
  norm_num

/-- C3 amended: the Level-2 engine places the strategy price rounded to
4 decimal places, which preserves it exactly since the strategy output
is already a 4-decimal value; the quote-only SchwabTrader instead
rounds the placed limit price to 2 decimal places. -/
theorem place_order_price_amended (side : Side) (state : OrderState)
    (book : Book) :
    place_order_limit_price_level2 ((calculate_next_price side state book).1) =
      roundTo 4 ((calculate_next_price side state book).1) ∧
    place_order_limit_price_level2 ((calculate_next_price side state book).1) =
      (calculate_next_price side state book).1 ∧
    place_order_limit_price ((calculate_next_price side state book).1) =
      roundTo 2 ((calculate_next_price side state book).1) := by
  refine ⟨rfl, ?_, rfl⟩
  cases side <;> cases state <;> exact roundTo_idem 4 _

/-- C4 counterexample: with best bid 0.99 and best ask 1.01 the
snapshot carries tick_size computed from the bid (0.0001), so a SELL in
the off-touch state is priced at 1.01 + 0.0001 = 1.0101, not at
ask + tickSize(ask) = 1.01 + 0.01 = 1.02 as the claim states. -/
theorem tick_from_touch_counterexample :
    get_order_book (some [("bidPrice", 99 / 100), ("askPrice", 101 / 100)]) =
      some { bid := 99 / 100, ask := 101 / 100, bid_size := 0, ask_size := 0,
             tick_size := 1 / 10000 } ∧
    (calculate_next_price Side.SELL OrderState.OFFSET_TICK
      { bid := 99 / 100, ask := 101 / 100, bid_size := 0, ask_size := 0,
        tick_size := 1 / 10000 }).1 = 10101 / 10000 ∧
    (10101 / 10000 : ℚ) ≠ 101 / 100 + calculate_tick_size (101 / 100) := by
  refine ⟨?_, ?_, ?_⟩
  · norm_num [get_order_book, quoteGet, calculate_tick_size]
    decide
  · show roundTo 4 (101 / 100 + 1 / 10000) = 10101 / 10000
    rw [roundTo, round_eq]
    norm_num
  · norm_num [calculate_tick_size]

/-- C4 amended: each cycle's snapshot does recompute the tick size
fresh from the current data, but always from the best bid, whatever the
side: both snapshot constructors store
tick_size = calculate_tick_size(bid of the snapshot), and consequently
a SELL in the off-touch state is priced at
round4(ask + tickSize(bid)), not ask + tickSize(ask). -/
theorem tick_recomputed_from_current_bid :
    (∀ (q : Quote) (b : Book), get_order_book (some q) = some b →
      b.tick_size = calculate_tick_size b.bid) ∧
    (∀ (u : Bool) (books : Books) (symbol : String) (quote? : Option Quote)
      (b : Book) (src : String),
      get_order_book_level2 u books symbol quote? = some (b, src) →
      b.tick_size = calculate_tick_size b.bid) ∧
    (∀ b : Book, b.tick_size = calculate_tick_size b.bid →
      (calculate_next_price Side.SELL OrderState.OFFSET_TICK b).1 =
        roundTo 4 (b.ask + calculate_tick_size b.bid)) := by
  have h1 : ∀ (q : Quote) (b : Book), get_order_book (some q) = some b →
      b.tick_size = calculate_tick_size b.bid := by
    intro q b h
    unfold get_order_book at h
    by_cases he : q.isEmpty
    · simp [he] at h
    · simp [he] at h
      rw [← h]
  refine ⟨h1, ?_, ?_⟩
  · intro u books symbol quote? b src h
    unfold get_order_book_level2 at h
    rcases htop : (if u = true then get_top_of_book books symbol else none) with _ | t
    · rw [htop] at h
      rw [Option.map_eq_some'] at h
      obtain ⟨b', hb', heq⟩ := h
      have hbb : b' = b := congrArg Prod.fst heq
      subst hbb
      rcases quote? with _ | q
      · simp [get_order_book] at hb'
      · exact h1 q b' hb'
    · rw [htop] at h
      simp only [Option.some.injEq, Prod.mk.injEq] at h
      rw [← h.1]
  · intro b hb
    show roundTo 4 (b.ask + b.tick_size) = _
    rw [hb]

/-- C4 witness: the amended statement at a quote with integer bid 2 and
ask 3, whose snapshot carries tick_size 0.01 computed from the bid. -/
theorem tick_recomputed_from_current_bid_witness :
    ({ bid := 2, ask := 3, bid_size := 0, ask_size := 0,
       tick_size := 1 / 100 } : Book).tick_size =
      calculate_tick_size
        ({ bid := 2, ask := 3, bid_size := 0, ask_size := 0,
           tick_size := 1 / 100 } : Book).bid :=
  tick_recomputed_from_current_bid.1 [("bidPrice", 2), ("askPrice", 3)]
    { bid := 2, ask := 3, bid_size := 0, ask_size := 0, tick_size := 1 / 100 }
    (by norm_num [get_order_book, quoteGet, calculate_tick_size]
        decide)

/-- Helper: the fill-progress invariant is preserved by folding any
list of venue fill reports bounded by the total quantity. -/
theorem fills_foldl_invariant (q : ℤ) (reports : List ℤ) (s : FillState)
    (hr : ∀ r ∈ reports, r ≤ q)
    (hs : s.quantity = q ∧
      s.filled_quantity + s.remaining_quantity = q ∧
      0 ≤ s.filled_quantity ∧ 0 ≤ s.remaining_quantity) :
    (reports.foldl apply_fill_report s).quantity = q ∧
    (reports.foldl apply_fill_report s).filled_quantity +
      (reports.foldl apply_fill_report s).remaining_quantity = q ∧
    0 ≤ (reports.foldl apply_fill_report s).filled_quantity ∧
    0 ≤ (reports.foldl apply_fill_report s).remaining_quantity := by
  induction reports generalizing s with
  | nil => exact hs
  | cons r rs ih =>
    have hrq : r ≤ q := hr r (List.mem_cons_self r rs)
    refine ih (apply_fill_report s r) (fun x hx => hr x (List.mem_cons_of_mem r hx)) ?_
    unfold apply_fill_report
    rcases hs with ⟨hqty, hsum, hf, hrem⟩
    by_cases hlt : s.filled_quantity < r
    · simp only [if_pos hlt]
      refine ⟨?_, ?_, ?_, ?_⟩ <;> dsimp only <;> omega
    · simp only [if_neg hlt]
      exact ⟨hqty, hsum, hf, hrem⟩

/-- C5: starting an execution of total quantity q and observing any
sequence of venue-reported filled quantities bounded by q (each placed
order is for at most the remaining quantity, so the venue never reports
more than the total), at every observation point
filled_quantity + remaining_quantity = q and both are nonnegative. -/
theorem fill_progress_invariant (q : ℤ) (hq : 0 ≤ q) (reports : List ℤ)
    (hr : ∀ r ∈ reports, r ≤ q) :
    (run_fills q reports).filled_quantity +
      (run_fills q reports).remaining_quantity = q ∧
    0 ≤ (run_fills q reports).filled_quantity ∧
    0 ≤ (run_fills q reports).remaining_quantity := by
  have h := fills_foldl_invariant q reports (start_order q) hr
    ⟨rfl, by simp [start_order], by simp [start_order], by simpa [start_order] using hq⟩
  exact ⟨h.2.1, h.2.2⟩

/-- C5 witness: the invariant at total quantity 100 after fill reports
30 then 100. -/
theorem fill_progress_invariant_witness :
    (run_fills 100 [30, 100]).filled_quantity +
      (run_fills 100 [30, 100]).remaining_quantity = 100 ∧
    0 ≤ (run_fills 100 [30, 100]).filled_quantity ∧
    0 ≤ (run_fills 100 [30, 100]).remaining_quantity :=
  fill_progress_invariant 100 (by decide) [30, 100] (by decide)

/-- C6: the best-bid/ask query returns None exactly when the symbol has
no stored entry or its stored bid set or ask set is empty; when it
returns a value, the bid is the maximum price key of the stored bid set
with that key's stored size, and the ask is the minimum price key of
the stored ask set with that key's stored size. -/
theorem get_top_of_book_spec (books : Books) (symbol : String) :
    (get_top_of_book books symbol = none ↔
      books (pyUpper symbol) = none ∨
      ∃ book, books (pyUpper symbol) = some book ∧
        (book.bids = [] ∨ book.asks = [])) ∧
    ∀ t, get_top_of_book books symbol = some t →
      ∃ book, books (pyUpper symbol) = some book ∧
        t.bid ∈ book.bids.map Prod.fst ∧
        (∀ p ∈ book.bids.map Prod.fst, p ≤ t.bid) ∧
        t.bid_size = sizeAt book.bids t.bid ∧
        t.ask ∈ book.asks.map Prod.fst ∧
        (∀ p ∈ book.asks.map Prod.fst, t.ask ≤ p) ∧
        t.ask_size = sizeAt book.asks t.ask := by
  rcases hbook : books (pyUpper symbol) with _ | book
  · constructor
    · simp [get_top_of_book, hbook]
    · intro t ht
      simp [get_top_of_book, hbook] at ht
  · by_cases hemp : book.bids.isEmpty || book.asks.isEmpty
    · constructor
      · simp only [get_top_of_book, hbook, hemp, if_true, true_iff]
        refine Or.inr ⟨book, rfl, ?_⟩
        rcases Bool.or_eq_true_iff.mp hemp with h | h
        · exact Or.inl (List.isEmpty_iff.mp h)
        · exact Or.inr (List.isEmpty_iff.mp h)
      · intro t ht
        simp only [get_top_of_book, hbook, hemp, if_true] at ht
        exact Option.noConfusion ht
    · have hb : book.bids ≠ [] := by
        intro h
        exact hemp (by simp [h])
      have ha : book.asks ≠ [] := by
        intro h
        exact hemp (by simp [h])
      constructor
      · simp only [get_top_of_book, hbook, hemp, if_false, Bool.false_eq_true]
        refine ⟨fun h => absurd h (Option.some_ne_none _), ?_⟩
        rintro (h | ⟨book', hbook', hor⟩)
        · exact Option.noConfusion h
        · exfalso
          rw [Option.some.injEq] at hbook'
          subst hbook'
          rcases hor with h | h
          · exact hb h
          · exact ha h
      · intro t ht
        simp only [get_top_of_book, hbook, hemp, if_false,
          Bool.false_eq_true, Option.some.injEq] at ht
        subst ht
        obtain ⟨m, hm⟩ : ∃ m : ℚ, (book.bids.map Prod.fst).maximum = (m : WithBot ℚ) := by
          rcases hmax : (book.bids.map Prod.fst).maximum with _ | m
          · exact absurd (List.map_eq_nil_iff.mp (List.maximum_eq_bot.mp hmax)) hb
          · exact ⟨m, rfl⟩
        obtain ⟨n, hn⟩ : ∃ n : ℚ, (book.asks.map Prod.fst).minimum = (n : WithTop ℚ) := by
          rcases hmin : (book.asks.map Prod.fst).minimum with _ | n
          · exact absurd (List.map_eq_nil_iff.mp (List.minimum_eq_top.mp hmin)) ha
          · exact ⟨n, rfl⟩
        refine ⟨book, rfl, ?_⟩
        rw [hm, hn]
        refine ⟨List.maximum_mem hm, fun p hp => List.le_maximum_of_mem hp hm, rfl,
          List.minimum_mem hn, fun p hp => List.minimum_le_of_mem hp hn, rfl⟩

/-- C6 witness: a store holding one AAPL book with bids at 10 and 9 and
asks at 11 and 12; the query normalises the lowercase symbol, returns
bid 10 with size 5 and ask 11 with size 7, and the characterising
properties hold there. -/
theorem get_top_of_book_spec_witness :
    ∃ book,
      (fun s => if s = "AAPL" then
          some (⟨[(10, 5), (9, 3)], [(11, 7), (12, 1)]⟩ : SideBooks)
        else none) (pyUpper "aapl") = some book ∧
      (10 : ℚ) ∈ book.bids.map Prod.fst ∧
      (∀ p ∈ book.bids.map Prod.fst, p ≤ (10 : ℚ)) ∧
      (5 : ℕ) = sizeAt book.bids 10 ∧
      (11 : ℚ) ∈ book.asks.map Prod.fst ∧
      (∀ p ∈ book.asks.map Prod.fst, (11 : ℚ) ≤ p) ∧
      (7 : ℕ) = sizeAt book.asks 11 :=
  (get_top_of_book_spec
    (fun s => if s = "AAPL" then
        some (⟨[(10, 5), (9, 3)], [(11, 7), (12, 1)]⟩ : SideBooks)
      else none) "aapl").2 ⟨10, 11, 5, 7⟩ (by decide)

/-- C7: applying a book update item that carries a bid level set leaves
the stored bid side of that symbol exactly equal to the parsed new set
(whole-side replacement, so every previously stored bid level absent
from the update is discarded), and leaves the ask side of that symbol
unchanged when the item carries no ask set; symmetrically for items
carrying an ask level set. -/
theorem process_item_replaces_side (books : Books) (item : BookItem)
    (hkey : pyUpper item.key ≠ "") :
    (∀ ls, item.bookBid? = some ls →
      (process_item books item (pyUpper item.key)).map SideBooks.bids =
        some (parseLevels ls) ∧
      (item.bookAsk? = none →
        ((process_item books item (pyUpper item.key)).getD emptySides).asks =
          ((books (pyUpper item.key)).getD emptySides).asks)) ∧
    (∀ ls, item.bookAsk? = some ls →
      (process_item books item (pyUpper item.key)).map SideBooks.asks =
        some (parseLevels ls) ∧
      (item.bookBid? = none →
        ((process_item books item (pyUpper item.key)).getD emptySides).bids =
          ((books (pyUpper item.key)).getD emptySides).bids)) := by
  rcases hbid : item.bookBid? with _ | lb <;>
    rcases hask : item.bookAsk? with _ | la
  · exact ⟨fun ls h => Option.noConfusion h, fun ls h => Option.noConfusion h⟩
  · constructor
    · intro ls h
      exact Option.noConfusion h
    · intro ls h
      have : la = ls := Option.some.inj h
      subst this
      refine ⟨?_, fun _ => ?_⟩ <;>
        simp [process_item, hbid, hask, setAsks, hkey]
  · constructor
    · intro ls h
      have : lb = ls := Option.some.inj h
      subst this
      refine ⟨?_, fun _ => ?_⟩ <;>
        simp [process_item, hbid, hask, setBids, hkey]
    · intro ls h
      exact Option.noConfusion h
  · constructor
    · intro ls h
      have : lb = ls := Option.some.inj h
      subst this
      refine ⟨?_, fun hcontra => Option.noConfusion hcontra⟩
      simp [process_item, hbid, hask, setBids, setAsks, hkey]
    · intro ls h
      have : la = ls := Option.some.inj h
      subst this
      refine ⟨?_, fun hcontra => Option.noConfusion hcontra⟩
      simp [process_item, hbid, hask, setBids, setAsks, hkey]

/-- C7 witness: an update for symbol xyz carrying only a bid set
replaces the stored bids of XYZ with the parsed set and leaves the
stored asks of XYZ untouched. -/
theorem process_item_replaces_side_witness :
    (process_item
        (fun s => if s = "XYZ" then
            some (⟨[(5, 1)], [(6, 2)]⟩ : SideBooks)
          else none)
        ⟨"xyz", some [⟨some 7, some 4⟩], none⟩
        (pyUpper "xyz")).map SideBooks.bids =
      some (parseLevels [⟨some 7, some 4⟩]) ∧
    ((process_item
        (fun s => if s = "XYZ" then
            some (⟨[(5, 1)], [(6, 2)]⟩ : SideBooks)
          else none)
        ⟨"xyz", some [⟨some 7, some 4⟩], none⟩
        (pyUpper "xyz")).getD emptySides).asks =
      (((fun s => if s = "XYZ" then
            some (⟨[(5, 1)], [(6, 2)]⟩ : SideBooks)
          else none) (pyUpper "xyz")).getD emptySides).asks := by
  have h := (process_item_replaces_side
    (fun s => if s = "XYZ" then
        some (⟨[(5, 1)], [(6, 2)]⟩ : SideBooks)
      else none)
    ⟨"xyz", some [⟨some 7, some 4⟩], none⟩
    (by decide)).1 [⟨some 7, some 4⟩] rfl
  exact ⟨h.1, h.2 rfl⟩

/-- Helper: the fill-update step changes neither the current order id
nor the alternation state. -/
theorem fill_update_preserves_order_fields (st : LoopState)
    (report? : Option StatusReport) :
    (fill_update st report?).current_order_id = st.current_order_id ∧
    (fill_update st report?).current_state = st.current_state := by
  unfold fill_update
  rcases report? with _ | r
  · exact ⟨rfl, rfl⟩
  · dsimp only
    split <;> exact ⟨rfl, rfl⟩

/-- Helper: when the fill-updated remaining quantity is nonzero and the
book snapshot is available, one loop iteration issues exactly a status
poll of the current order id, a cancel of that same id, and a placement
of the fill-updated remaining quantity at the newly computed price,
whatever the polled status string was. -/
theorem loop_cycle_actions_eq (side : Side) (st : LoopState)
    (report : StatusReport) (book : Book) (new_order_id? : Option String)
    (hrem : (fill_update st (some report)).remaining_quantity ≠ 0) :
    (loop_cycle side st (some report) (some book) new_order_id?).2 =
      [GatewayAction.getStatus st.current_order_id,
       GatewayAction.cancel st.current_order_id,
       GatewayAction.place (fill_update st (some report)).remaining_quantity
         (calculate_next_price side st.current_state book).1] := by
  obtain ⟨hid, hst⟩ := fill_update_preserves_order_fields st (some report)
  simp only [loop_cycle, calculate_next_price_opt]
  rw [if_neg hrem, hid, hst]
  cases new_order_id? <;> rfl

/-- C8 counterexample: a cycle whose status poll reports CANCELED while
remaining quantity is 100 issues a cancel against the defunct order id
42, contrary to the claim that no cancel is issued on this path. -/
theorem loop_cycle_cancels_defunct_counterexample :
    GatewayAction.cancel "42" ∈
      (loop_cycle Side.BUY
        ⟨100, 0, 100, "42", OrderState.OFFSET_TICK⟩
        (some ⟨"CANCELED", 0⟩)
        (some ⟨10, 11, 1, 1, 1⟩)
        (some "43")).2 := by
  rw [loop_cycle_actions_eq Side.BUY
    ⟨100, 0, 100, "42", OrderState.OFFSET_TICK⟩
    ⟨"CANCELED", 0⟩ ⟨10, 11, 1, 1, 1⟩ (some "43") (by decide)]
  simp

/-- C8 amended: on a cycle whose status poll reports a terminal venue
state among CANCELED, REJECTED, EXPIRED while the fill-updated
remaining quantity is still nonzero, the loop does re-enter pricing and
placement in that same cycle and submits a new order for the remaining
quantity, but through the cancel-then-place replace path: a cancel is
first issued against the defunct order id, then the fresh placement. -/
theorem loop_cycle_terminal_state_replaces (side : Side) (st : LoopState)
    (report : StatusReport) (book : Book) (new_order_id? : Option String)
    (hterm : report.status ∈ ["CANCELED", "REJECTED", "EXPIRED"])
    (hrem : (fill_update st (some report)).remaining_quantity ≠ 0) :
    (loop_cycle side st (some report) (some book) new_order_id?).2 =
      [GatewayAction.getStatus st.current_order_id,
       GatewayAction.cancel st.current_order_id,
       GatewayAction.place (fill_update st (some report)).remaining_quantity
         (calculate_next_price side st.current_state book).1] :=
  loop_cycle_actions_eq side st report book new_order_id? hrem

/-- C8 witness: the amended statement at a concrete cycle with status
CANCELED, order id 42, remaining quantity 100 and an integer book. -/
theorem loop_cycle_terminal_state_replaces_witness :
    (loop_cycle Side.SELL
        ⟨100, 0, 100, "42", OrderState.AT_BOOK⟩
        (some ⟨"REJECTED", 0⟩)
        (some ⟨10, 11, 1, 1, 1⟩)
        none).2 =
      [GatewayAction.getStatus "42",
       GatewayAction.cancel "42",
       GatewayAction.place 100
         (calculate_next_price Side.SELL OrderState.AT_BOOK
           ⟨10, 11, 1, 1, 1⟩).1] :=
  loop_cycle_terminal_state_replaces Side.SELL
    ⟨100, 0, 100, "42", OrderState.AT_BOOK⟩
    ⟨"REJECTED", 0⟩ ⟨10, 11, 1, 1, 1⟩ none
    (by decide) (by decide)

/-- Helper: the quote dict lookup defaults to 0 when the field is
absent from the dict. -/
theorem quoteGet_eq_zero (q : Quote) (f : String)
    (h : ∀ e ∈ q, e.1 ≠ f) : quoteGet q f = 0 := by
  induction q with
  | nil => rfl
  | cons e rest ih =>
    unfold quoteGet
    rw [if_neg (h e (List.mem_cons_self e rest))]
    exact ih (fun x hx => h x (List.mem_cons_of_mem e hx))

/-- C10: when the Level-1 quote fetch succeeds with a non-empty quote
object lacking all of bidPrice, askPrice, bidSize, askSize, the
snapshot operation returns a snapshot (not None) with bid 0, ask 0,
both sizes 0 and tick_size 0.0001 (the sub-dollar branch of the tick
rule applied to the defaulted bid 0); the same holds for the Level-1
fallback of the Level-2 engine; and the pricing step on that snapshot
yields one tick below 0 for an off-touch BUY and one tick above 0 for
an off-touch SELL. -/
theorem get_order_book_missing_fields_defaults (q : Quote) (hne : q ≠ [])
    (h1 : ∀ e ∈ q, e.1 ≠ "bidPrice") (h2 : ∀ e ∈ q, e.1 ≠ "askPrice")
    (h3 : ∀ e ∈ q, e.1 ≠ "bidSize") (h4 : ∀ e ∈ q, e.1 ≠ "askSize") :
    get_order_book (some q) =
      some { bid := 0, ask := 0, bid_size := 0, ask_size := 0,
             tick_size := 1 / 10000 } ∧
    (∀ books symbol, get_order_book_level2 false books symbol (some q) =
      some ({ bid := 0, ask := 0, bid_size := 0, ask_size := 0,
              tick_size := 1 / 10000 }, "Level 1")) ∧
    (calculate_next_price Side.BUY OrderState.OFFSET_TICK
      { bid := 0, ask := 0, bid_size := 0, ask_size := 0,
        tick_size := 1 / 10000 }).1 = -(1 / 10000) ∧
    (calculate_next_price Side.SELL OrderState.OFFSET_TICK
      { bid := 0, ask := 0, bid_size := 0, ask_size := 0,
        tick_size := 1 / 10000 }).1 = 1 / 10000 := by
  have hbook : get_order_book (some q) =
      some { bid := 0, ask := 0, bid_size := 0, ask_size := 0,
             tick_size := 1 / 10000 } := by
    unfold get_order_book
    dsimp only
    rw [if_neg (by simpa [List.isEmpty_iff] using hne)]
    rw [quoteGet_eq_zero q "bidPrice" h1, quoteGet_eq_zero q "askPrice" h2,
      quoteGet_eq_zero q "bidSize" h3, quoteGet_eq_zero q "askSize" h4]
    norm_num [calculate_tick_size]
  refine ⟨hbook, ?_, ?_, ?_⟩
  · intro books symbol
    simp [get_order_book_level2, hbook]
  · show roundTo 4 ((0 : ℚ) - 1 / 10000) = -(1 / 10000)
    rw [roundTo, round_eq]
    norm_num
  · show roundTo 4 ((0 : ℚ) + 1 / 10000) = 1 / 10000
    rw [roundTo, round_eq]
    norm_num

/-- C10 witness: a quote that carries only lastPrice yields the
defaulted snapshot and the one-tick-through-zero prices. -/
theorem get_order_book_missing_fields_defaults_witness :
    get_order_book (some [("lastPrice", 5)]) =
      some { bid := 0, ask := 0, bid_size := 0, ask_size := 0,
             tick_size := 1 / 10000 } ∧
    (calculate_next_price Side.BUY OrderState.OFFSET_TICK
      { bid := 0, ask := 0, bid_size := 0, ask_size := 0,
        tick_size := 1 / 10000 }).1 = -(1 / 10000) := by
  have h := get_order_book_missing_fields_defaults [("lastPrice", 5)]
    (by decide) (by decide) (by decide) (by decide) (by decide)
  exact ⟨h.1, h.2.2.1⟩

end SchwabTrading
